import Mathlib

/-!
Verification of the token-lifecycle core of PhotoManager-API
(`src/auth/auth.service.ts`), shallowly embedded in Lean 4.

The orchestrator methods (`silentLogin`, `login`, `register`, `logout`,
`refreshToken`, `verifyIdToken`, `verifyAccessToken`, `getAccessToken`)
are translated directly from the TypeScript source.  External
collaborators are made explicit:

* the JWT codec is modelled by a symbolic token type `TokenStr` whose
  `signed` constructor records the claim set and the secret the token
  was signed with; `jwtDecode` ignores the signature (as
  `jwtService.decode` does) while `jwtVerify` checks it and the expiry;
* the wall clock and the `uuidv4` draws are passed as explicit
  arguments;
* the user store is an abstract interface `StoreI` of state-passing
  functions, so theorems quantifying over every `StoreI` capture the
  control flow of the orchestrator for every store behaviour; a
  concrete instance `specStore` (modelled from the spec, since
  `src/users/user.service.ts` is not part of the sources) is used for
  the stateful rotation properties.

JavaScript details that matter are modelled explicitly: truthiness of
the guard `accessToken && refreshToken && tokenPayload?.userId`, the
`catch` block of `login` reacting to `error.status === 404`, the
TypeError raised when a member of `undefined` is accessed, and the
fact that `verifyIdToken` falls through its `switch` for a provider
other than Google and resolves `undefined`.
-/

/-- HttpStatus.NOT_FOUND. -/
def notFoundStatus : Nat := 404

/-- HttpStatus.UNAUTHORIZED. -/
def unauthorizedStatus : Nat := 401

/-- HttpStatus.BAD_REQUEST. -/
def badRequestStatus : Nat := 400

/-- A JavaScript error value as observed by the `catch` blocks of the
source: a possibly absent HTTP status and a message.  `HttpException`
carries a status; a raw `TypeError` carries none. -/
structure JsError where
  status : Option Nat := none
  message : String := ""
deriving Repr, DecidableEq

/-- The error thrown when a member of `undefined` is accessed. -/
def typeErrorUndefined : JsError :=
  { status := none, message := "TypeError: cannot read properties of undefined" }

/-- The `HttpException` thrown by `verifyIdToken` on a caught failure. -/
def idTokenNotValidErr : JsError :=
  { status := some unauthorizedStatus, message := "idToken not valid" }

/-- The `HttpException` thrown by `verifyAccessToken` on a caught failure. -/
def tokenExpiredErr : JsError :=
  { status := some unauthorizedStatus, message := "Authorization token expired" }

/-- The `HttpException` thrown by `refreshToken` when a required value is
missing. -/
def badTokenRequestErr : JsError :=
  { status := some badRequestStatus, message := "Bad token request" }

/-- The NotFound failure of the store adapter.  Modelled from the spec:
the user service is an external collaborator (`src/users/user.service.ts`
is not among the sources); §4.3 and §7 of the spec make its lookups fail
with a `NotFound` kind, surfaced as an HTTP 404 error. -/
def notFoundErr : JsError :=
  { status := some notFoundStatus, message := "Not found" }

/-- The claim set of an access token (`AccessTokenPayload` in the source,
with the fields a decoded, unverified token may lack made optional:
the source checks `tokenPayload?.userId`, so `userId` can be absent). -/
structure Payload where
  name : String := ""
  email : String := ""
  userId : Option String := none
  iat : Option Nat := none
  exp : Option Nat := none
  permissions : List Int := []
  roles : List Int := []
deriving Repr, DecidableEq

/-- The verified identity claim returned by the Google client
(`OAuthTokenPayload` in the source). -/
structure OAuthPayload where
  name : String
  email : String
deriving Repr, DecidableEq

/-- The `{name, email}` object used as a token payload: all other fields
absent, exactly as spreading the two-field object does in the source. -/
def OAuthPayload.toPayload (p : OAuthPayload) : Payload :=
  { name := p.name, email := p.email }

/-- A token string as the orchestrator sees it: either a string that the
JWT codec cannot decode (`raw`, including the empty string), or a signed
token carrying a claim set and the secret it was signed with. -/
inductive TokenStr where
  | raw (s : String)
  | signed (claims : Payload) (sig : String)
deriving Repr, DecidableEq

/-- JavaScript truthiness of a token string: only the empty string is
falsy. -/
def TokenStr.truthy : TokenStr → Bool
  | .raw s => s ≠ ""
  | .signed _ _ => true

/-- `jwtService.decode`: parses the claims without checking signature or
expiry; yields nothing on an undecodable string. -/
def jwtDecode : TokenStr → Option Payload
  | .raw _ => none
  | .signed c _ => some c

/-- Expiry acceptance of `jwtService.verify` at clock `now`: a token
with an `exp` claim is accepted strictly before `exp`. -/
def expOk (now : Nat) : Option Nat → Bool
  | none => true
  | some e => decide (now < e)

/-- `jwtService.verify` with a secret at clock `now`: succeeds exactly on
a token signed with that secret and not yet expired. -/
def jwtVerify (secret : String) (now : Nat) : TokenStr → Option Payload
  | .raw _ => none
  | .signed c sig => if sig = secret ∧ expOk now c.exp then some c else none

/-- `verifyAccessToken` from the source: wraps `jwtService.verify`,
translating any failure into the single 401 `HttpException`. -/
def verifyAccessToken (secret : String) (now : Nat) (accessToken : TokenStr) :
    Except JsError Payload :=
  match jwtVerify secret now accessToken with
  | some p => .ok p
  | none => .error tokenExpiredErr

/-- `jwtTTL` from the source. -/
def jwtTTL : Nat := 300

/-- `getAccessToken` from the source: overwrites `iat` with the current
clock and `exp` with `iat + 300`, then signs with the configured secret. -/
def getAccessToken (secret : String) (now : Nat) (payload : Payload) : TokenStr :=
  .signed { payload with iat := some now, exp := some (now + jwtTTL) } secret

/-- A user record as held by the store adapter. -/
structure UserRecord where
  _id : String
  name : String
  email : String
  refreshToken : Option String := none
deriving Repr, DecidableEq

/-- The store adapter interface (`UserService`): state-passing functions
over an abstract state `σ`.  The `userId` arguments are `Option String`
because the source passes possibly-undefined values such as
`tokenPayload.userId`. -/
structure StoreI (σ : Type) where
  getById : Option String → σ → Except JsError UserRecord × σ
  getByEmail : String → σ → Except JsError UserRecord × σ
  create : String → String → σ → Except JsError UserRecord × σ
  saveRefreshToken : Option String → Option String → σ → Except JsError Unit × σ
  getUserIfRefreshTokenMatches : Option String → String → σ → Except JsError UserRecord × σ

/-- The `{accessToken, refreshToken}` pair returned by the successful
operations. -/
structure TokenPair where
  accessToken : TokenStr
  refreshToken : String
deriving Repr, DecidableEq

/-- Enumeration of identity providers.  Modelled from the spec:
`src/constants.ts` is not among the sources; the spec gives
`enum{Google, …}`, so one further tag stands for every non-Google
provider. -/
inductive AuthProvider where
  | Google
  | other
deriving Repr, DecidableEq

/-- `verifyIdToken` from the source.  The Google client is an oracle
`google`; any failure inside the `try` (client rejection, or a missing
payload making the destructuring throw) is caught and replaced by the
single 401 `HttpException`.  For a provider other than Google the
`switch` has no matching case and no default, so the function falls
through the `try` block and resolves `undefined` — modelled as
`.ok none`. -/
def verifyIdToken (google : String → Option OAuthPayload) (idToken : String) :
    AuthProvider → Except JsError (Option OAuthPayload)
  | .Google =>
    match google idToken with
    | some p => .ok (some p)
    | none => .error idTokenNotValidErr
  | .other => .ok none

/-- `silentLogin` from the source: verify the access token, draw a fresh
uuid, look the user up by the token claim `userId`, save the new refresh
token, return a freshly issued pair. -/
def silentLogin {σ : Type} (st : StoreI σ) (secret : String) (now : Nat)
    (uuid : String) (accessToken : TokenStr) (s : σ) :
    Except JsError TokenPair × σ :=
  match verifyAccessToken secret now accessToken with
  | .error e => (.error e, s)
  | .ok tokenPayload =>
    match st.getById tokenPayload.userId s with
    | (.error e, s1) => (.error e, s1)
    | (.ok _, s1) =>
      match st.saveRefreshToken tokenPayload.userId (some uuid) s1 with
      | (.error e, s2) => (.error e, s2)
      | (.ok _, s2) =>
        (.ok { accessToken := getAccessToken secret now tokenPayload,
               refreshToken := uuid }, s2)

/-- `register` from the source: create the user record, issue an access
token bound to the new id, save the fresh refresh token, return the
pair. -/
def register {σ : Type} (st : StoreI σ) (secret : String) (now : Nat)
    (uuid : String) (tokenPayload : Payload) (s : σ) :
    Except JsError TokenPair × σ :=
  match st.create tokenPayload.name tokenPayload.email s with
  | (.error e, s1) => (.error e, s1)
  | (.ok rec, s1) =>
    match st.saveRefreshToken (some rec._id) (some uuid) s1 with
    | (.error e, s2) => (.error e, s2)
    | (.ok _, s2) =>
      (.ok { accessToken := getAccessToken secret now
               { tokenPayload with userId := some rec._id },
             refreshToken := uuid }, s2)

/-- `login` from the source.  The whole body runs inside one `try`; the
`catch` re-enters `register` when `error.status === 404` and rethrows
otherwise.  Two JavaScript corner cases are kept: if `verifyIdToken`
itself threw, `tokenPayload` is still unassigned, so a 404 there would
make `register(undefined)` throw a TypeError; if `verifyIdToken`
resolved `undefined` (non-Google provider), reading
`tokenPayload.email` throws a TypeError, which the catch rethrows since
it has no status. -/
def login {σ : Type} (st : StoreI σ) (secret : String) (now : Nat)
    (google : String → Option OAuthPayload) (uuid uuidReg : String)
    (idToken : String) (provider : AuthProvider) (s : σ) :
    Except JsError TokenPair × σ :=
  match verifyIdToken google idToken provider with
  | .error e =>
    if e.status = some notFoundStatus then (.error typeErrorUndefined, s)
    else (.error e, s)
  | .ok none => (.error typeErrorUndefined, s)
  | .ok (some oauth) =>
    match st.getByEmail oauth.toPayload.email s with
    | (.error e, s1) =>
      if e.status = some notFoundStatus then
        register st secret now uuidReg oauth.toPayload s1
      else (.error e, s1)
    | (.ok rec, s1) =>
      match st.saveRefreshToken (some rec._id) (some uuid) s1 with
      | (.error e, s2) =>
        if e.status = some notFoundStatus then
          register st secret now uuidReg oauth.toPayload s2
        else (.error e, s2)
      | (.ok _, s2) =>
        (.ok { accessToken := getAccessToken secret now
                 { oauth.toPayload with userId := some rec._id },
               refreshToken := uuid }, s2)

/-- `logout` from the source: verify the access token and clear the
stored refresh token. -/
def logout {σ : Type} (st : StoreI σ) (secret : String) (now : Nat)
    (accessToken : TokenStr) (s : σ) : Except JsError Unit × σ :=
  match verifyAccessToken secret now accessToken with
  | .error e => (.error e, s)
  | .ok p =>
    match st.saveRefreshToken p.userId none s with
    | (.error e, s1) => (.error e, s1)
    | (.ok _, s1) => (.ok (), s1)

/-- Truthiness of `tokenPayload?.userId`: the payload decoded, it holds a
`userId`, and that id is a non-empty string. -/
def payloadUserIdTruthy : Option Payload → Bool
  | some p => match p.userId with
    | some u => u ≠ ""
    | none => false
  | none => false

/-- `refreshToken` from the source.  The access token is only *decoded*
(never verified); the guard is the JavaScript truthiness check
`accessToken && refreshToken && tokenPayload?.userId` with the `else`
branch throwing `BadRequest`; inside, a matched record with a falsy
`_id` makes the inner `if` fall through so that the function resolves
`undefined`, modelled as `.ok none`. -/
def refreshToken {σ : Type} (st : StoreI σ) (secret : String) (now : Nat)
    (uuid : String) (accessToken : TokenStr) (refreshTok : String) (s : σ) :
    Except JsError (Option TokenPair) × σ :=
  if accessToken.truthy && refreshTok ≠ "" && payloadUserIdTruthy (jwtDecode accessToken) then
    match jwtDecode accessToken with
    | some p =>
      match st.getUserIfRefreshTokenMatches p.userId refreshTok s with
      | (.error e, s1) => (.error e, s1)
      | (.ok rec, s1) =>
        if rec._id ≠ "" then
          match st.saveRefreshToken (some rec._id) (some uuid) s1 with
          | (.error e, s2) => (.error e, s2)
          | (.ok _, s2) =>
            (.ok (some { accessToken := getAccessToken secret now p,
                         refreshToken := uuid }), s2)
        else (.ok none, s1)
    | none => (.ok none, s)
  else
    (.error badTokenRequestErr, s)

/-- A refresh exchange outcome counts as successful exactly when it
resolves with a token pair (neither an error nor `undefined`). -/
def succeeded : Except JsError (Option TokenPair) → Bool
  | .ok (some _) => true
  | _ => false

/-! ## A concrete store, modelled from the spec

`src/users/user.service.ts` is not among the sources; §4.3 of the spec
gives the contract of the store adapter, which the following state
(`DB`, a list of user records plus a fresh-id counter) and operations
realise: lookups fail `NotFound`, `create` assigns a new id,
`saveRefreshToken` overwrites the single stored value, and
`getUserIfRefreshTokenMatches` returns a record only when the stored
refresh token equals the presented one, failing `NotFound` otherwise. -/

/-- Modelled from the spec: the persisted state of the store adapter —
the user records (each holding at most one refresh token value) and a
counter for assigning fresh user ids. -/
structure DB where
  users : List UserRecord := []
  nextId : Nat := 0
deriving Repr, DecidableEq

/-- The record the store retrieves for a user id, if any. -/
def DB.findId (db : DB) (uid : Option String) : Option UserRecord :=
  db.users.find? (fun r => some r._id == uid)

/-- Modelled from the spec: `getById(userId) -> UserRecord | fails NotFound`. -/
def DB.getById (uid : Option String) (db : DB) : Except JsError UserRecord × DB :=
  match db.findId uid with
  | some r => (.ok r, db)
  | none => (.error notFoundErr, db)

/-- Modelled from the spec: `getByEmail(email) -> UserRecord | fails NotFound`. -/
def DB.getByEmail (email : String) (db : DB) : Except JsError UserRecord × DB :=
  match db.users.find? (fun r => r.email == email) with
  | some r => (.ok r, db)
  | none => (.error notFoundErr, db)

/-- Modelled from the spec: `create(name, email) -> UserRecord`, assigning
a fresh user id and no refresh token yet. -/
def DB.create (name email : String) (db : DB) : Except JsError UserRecord × DB :=
  let r : UserRecord :=
    { _id := "u" ++ toString db.nextId, name := name, email := email }
  (.ok r, { users := db.users ++ [r], nextId := db.nextId + 1 })

/-- Modelled from the spec: `saveRefreshToken(userId, token | absent)`
overwrites the stored refresh token of the matching records. -/
def DB.saveRefreshToken (uid tok : Option String) (db : DB) :
    Except JsError Unit × DB :=
  let users := db.users.map
    (fun r => if some r._id == uid then { r with refreshToken := tok } else r)
  (.ok (), { db with users := users })

/-- Modelled from the spec: `getUserIfRefreshTokenMatches(userId, token)`
returns the record only if its stored refresh token equals `token`,
failing `NotFound`-equivalent otherwise. -/
def DB.getUserIfRefreshTokenMatches (uid : Option String) (tok : String)
    (db : DB) : Except JsError UserRecord × DB :=
  match db.findId uid with
  | some r => if r.refreshToken = some tok then (.ok r, db) else (.error notFoundErr, db)
  | none => (.error notFoundErr, db)

/-- The spec-modelled store packaged as a `StoreI`. -/
def specStore : StoreI DB :=
  { getById := DB.getById
    getByEmail := DB.getByEmail
    create := DB.create
    saveRefreshToken := DB.saveRefreshToken
    getUserIfRefreshTokenMatches := DB.getUserIfRefreshTokenMatches }

/-- The claims of a freshly issued access token: signed, with `iat` the
issuance clock and `exp = iat + 300`. -/
def freshClaims (now : Nat) (t : TokenStr) : Prop :=
  ∃ c sig, t = TokenStr.signed c sig ∧ c.iat = some now ∧ c.exp = some (now + 300)

/-- After a successful rotating operation returning the pair `pr`, the
store state binds the user named by the issued access token to exactly
the new refresh token value. -/
def rotatedState (db : DB) (pr : TokenPair) : Prop :=
  ∃ p u rec, jwtDecode pr.accessToken = some p ∧ p.userId = some u ∧
    db.findId (some u) = some rec ∧ rec.refreshToken = some pr.refreshToken

/-! ## Concrete fixtures used by the witnesses -/

/-- A stored user record. -/
def recW : UserRecord := { _id := "u0", name := "Ann", email := "ann@x.com", refreshToken := some "r0" }

/-- A one-user database whose stored refresh token is `"r0"`. -/
def dbW : DB := { users := [recW], nextId := 1 }

/-- An access-token claim set naming that user. -/
def payW : Payload := { name := "Ann", email := "ann@x.com", userId := some "u0" }

/-- A verified identity claim for that user. -/
def oauthW : OAuthPayload := { name := "Ann", email := "ann@x.com" }

/-- The same claim set with an expiry lying in the past. -/
def payExpiredW : Payload :=
  { name := "Ann", email := "ann@x.com", userId := some "u0", exp := some 1 }

/-- A Google oracle accepting every assertion as `oauthW`. -/
def googleW : String → Option OAuthPayload := fun _ => some oauthW

/-- A store whose lookups succeed but whose `saveRefreshToken` fails with
the store NotFound error: it exhibits a NotFound arising *after* the
successful email lookup inside `login`. -/
def saveFailsStore : StoreI Nat :=
  { getById := fun _ n => (.ok recW, n)
    getByEmail := fun _ n => (.ok recW, n)
    create := fun name email n =>
      (.ok { _id := "c" ++ toString n, name := name, email := email }, n + 1)
    saveRefreshToken := fun _ _ n => (.error notFoundErr, n)
    getUserIfRefreshTokenMatches := fun _ _ n => (.error notFoundErr, n) }

/-- The claim set of `payW` as reissued at clock `7`. -/
def paySignedW : Payload := { payW with iat := some 7, exp := some 307 }

/-- The pair issued at clock `7` with uuid `"v1"` for the stored user. -/
def prSilentW : TokenPair :=
  { accessToken := .signed paySignedW "sec", refreshToken := "v1" }

/-- `dbW` after rotating the stored refresh token to `"v1"`. -/
def dbRotW : DB :=
  { users := [{ recW with refreshToken := some "v1" }], nextId := 1 }

/-- The record created by `DB.create` out of `dbW`. -/
def recU1W : UserRecord := { _id := "u1", name := "Ann", email := "ann@x.com" }

/-- `dbW` right after that creation. -/
def dbCreateW : DB := { users := [recW, recU1W], nextId := 2 }

/-- The pair issued by `register` at clock `7` with uuid `"v1"` from `dbW`. -/
def prRegW : TokenPair :=
  { accessToken := .signed { paySignedW with userId := some "u1" } "sec",
    refreshToken := "v1" }

/-- `dbW` after that registration. -/
def dbRegW : DB :=
  { users := [recW, { recU1W with refreshToken := some "v1" }], nextId := 2 }

/-- The empty database. -/
def dbEmptyW : DB := {}

/-- `dbW` after a logout of the stored user. -/
def dbLogoutW : DB :=
  { users := [{ recW with refreshToken := none }], nextId := 1 }

/-- A store all of whose operations fail with a non-NotFound (401)
error: it exhibits the propagation of a failure other than NotFound. -/
def emailErrStore : StoreI Nat :=
  { getById := fun _ n => (.error idTokenNotValidErr, n)
    getByEmail := fun _ n => (.error idTokenNotValidErr, n)
    create := fun _ _ n => (.error idTokenNotValidErr, n)
    saveRefreshToken := fun _ _ n => (.error idTokenNotValidErr, n)
    getUserIfRefreshTokenMatches := fun _ _ n => (.error idTokenNotValidErr, n) }

/-! ## Theorems -/

/-- Every token produced by `getAccessToken` carries the fresh claims. -/
theorem getAccessToken_freshClaims (secret : String) (now : Nat) (p : Payload) :
    freshClaims now (getAccessToken secret now p) :=
  ⟨{ p with iat := some now, exp := some (now + jwtTTL) }, secret, rfl, rfl, rfl⟩

/-- C6: a refresh exchange with a missing (empty) access-token value or
an empty refresh-token value fails `BadRequest` at once, for every store
implementation and with the store state untouched — since this holds for
an arbitrary store, no store read or write can have been performed — and
regardless of the validity of the access token. -/
theorem refreshExchange_missing_value_badRequest {σ : Type} (st : StoreI σ)
    (secret : String) (now : Nat) (uuid : String) (a : TokenStr) (rtok : String)
    (s : σ) (h : a.truthy = false ∨ rtok = "") :
    refreshToken st secret now uuid a rtok s = (.error badTokenRequestErr, s) := by
  unfold refreshToken
  rcases h with h | h <;> simp [h]

/-- Witness for C6 at a concrete input: the empty access token. -/
theorem refreshExchange_missing_value_badRequest_witness :
    refreshToken specStore "sec" 0 "v1" (.raw "") "r0" dbW =
      (.error badTokenRequestErr, dbW) :=
  refreshExchange_missing_value_badRequest specStore "sec" 0 "v1" (.raw "") "r0"
    dbW (Or.inl rfl)

/-- C3 counterexample: with both token values present and non-empty but a
decoded payload carrying no `userId`, `refreshToken` raises the
`BadRequest` HttpException (the `else` branch of the guard), so the
exchange does *not* silently produce no result. -/
theorem refreshExchange_no_userId_counterexample :
    refreshToken specStore "sec" 0 "v1"
        (.signed { name := "Ann", email := "ann@x.com" } "sec") "r0" dbW =
      (.error badTokenRequestErr, dbW) := rfl

/-- C3 (amended): for every store, a refresh exchange whose two values
are present and non-empty but whose decoded access-token payload yields
no `userId` fails with `BadRequest` (with the store untouched), instead
of silently producing no result. -/
theorem refreshExchange_no_userId_badRequest {σ : Type} (st : StoreI σ)
    (secret : String) (now : Nat) (uuid : String) (p : Payload)
    (sig rtok : String) (s : σ) (hu : p.userId = none) (hrt : rtok ≠ "") :
    refreshToken st secret now uuid (.signed p sig) rtok s =
      (.error badTokenRequestErr, s) := by
  unfold refreshToken
  simp [jwtDecode, payloadUserIdTruthy, hu]

/-- Witness for the amended C3 at a concrete input. -/
theorem refreshExchange_no_userId_badRequest_witness :
    refreshToken specStore "sec" 7 "v1"
        (.signed { name := "Bob", email := "bob@x.com" } "other") "r0" dbW =
      (.error badTokenRequestErr, dbW) :=
  refreshExchange_no_userId_badRequest specStore "sec" 7 "v1"
    { name := "Bob", email := "bob@x.com" } "other" "r0" dbW rfl (by decide)

/-- C4: the code contradicts the claim for non-Google providers — the
provider `switch` has no default case and no failure path, so
`verifyIdToken` resolves `undefined` (no error of any kind is raised),
whatever the oracle would have answered; only the Google path fails
with the single 401 kind. -/
theorem verifyIdToken_nonGoogle_resolves_undefined :
    verifyIdToken googleW "assertion" .other = .ok none ∧
    verifyIdToken (fun _ => none) "assertion" .other = .ok none ∧
    verifyIdToken (fun _ => none) "assertion" .Google = .error idTokenNotValidErr :=
  ⟨rfl, rfl, rfl⟩

/-- A found record has the id it was looked up by. -/
theorem findId_some_id {db : DB} {u : String} {rec : UserRecord}
    (h : db.findId (some u) = some rec) : rec._id = u := by
  have := List.find?_some h
  simpa using this

/-- C2: the refresh exchange never cryptographically verifies the access
token.  The signature value `sig` and the expiry in `p` are arbitrary —
in particular the signature may differ from the configured secret and
the expiry may lie in the past — yet whenever both values are non-empty,
the decoded payload carries a truthy `userId`, and the presented refresh
token equals the stored one, the exchange returns the freshly issued
pair. -/
theorem refreshExchange_ignores_signature (secret : String) (now : Nat)
    (uuid : String) (p : Payload) (sig u rtok : String) (db : DB)
    (rec : UserRecord) (hu : p.userId = some u) (hune : u ≠ "") (hrt : rtok ≠ "")
    (hfind : db.findId (some u) = some rec)
    (hmatch : rec.refreshToken = some rtok) :
    (refreshToken specStore secret now uuid (.signed p sig) rtok db).1 =
      .ok (some { accessToken := getAccessToken secret now p,
                  refreshToken := uuid }) := by
  have hid : rec._id = u := findId_some_id hfind
  simp [refreshToken, specStore, DB.getUserIfRefreshTokenMatches,
        DB.saveRefreshToken, jwtDecode, payloadUserIdTruthy, TokenStr.truthy,
        hu, hune, hrt, hfind, hmatch, hid]

/-- Witness for C2 at a concrete input: the access token is signed with
the wrong secret (`"bad"` instead of `"sec"`) and already expired
(`exp = 1` at clock `1000`), yet the exchange succeeds. -/
theorem refreshExchange_ignores_signature_witness :
    (refreshToken specStore "sec" 1000 "v1" (.signed payExpiredW "bad") "r0" dbW).1 =
      .ok (some { accessToken := getAccessToken "sec" 1000 payExpiredW,
                  refreshToken := "v1" }) :=
  refreshExchange_ignores_signature "sec" 1000 "v1" payExpiredW
    "bad" "u0" "r0" dbW recW rfl (by decide) (by decide) rfl rfl

/-- A successful `silentLogin` issues its access token through
`getAccessToken` at the call clock and returns the drawn uuid as the
refresh token. -/
theorem silentLogin_ok_accessToken {σ : Type} {st : StoreI σ} {secret : String}
    {now : Nat} {uuid : String} {a : TokenStr} {s : σ} {pr : TokenPair} {s' : σ}
    (h : silentLogin st secret now uuid a s = (.ok pr, s')) :
    ∃ q, pr.accessToken = getAccessToken secret now q ∧ pr.refreshToken = uuid := by
  unfold silentLogin at h
  split at h
  · simp at h
  · split at h
    · simp at h
    · split at h
      · simp at h
      · simp [Prod.ext_iff] at h
        obtain ⟨h1, -⟩ := h
        exact ⟨_, by rw [← h1], by rw [← h1]⟩

/-- A successful `register` created a record and issued its access token
bound to the created id. -/
theorem register_ok_shape {σ : Type} {st : StoreI σ} {secret : String}
    {now : Nat} {uuid : String} {p : Payload} {s : σ} {pr : TokenPair} {s' : σ}
    (h : register st secret now uuid p s = (.ok pr, s')) :
    ∃ rec s1, st.create p.name p.email s = (.ok rec, s1) ∧
      pr.accessToken = getAccessToken secret now { p with userId := some rec._id } ∧
      pr.refreshToken = uuid := by
  unfold register at h
  split at h
  next e s1 heq => simp at h
  next rec s1 heq =>
    split at h
    next => simp at h
    next =>
      simp [Prod.ext_iff] at h
      obtain ⟨h1, -⟩ := h
      exact ⟨rec, s1, heq, by rw [← h1], by rw [← h1]⟩

/-- A successful `login` issues its access token through
`getAccessToken` at the call clock; its refresh token is the uuid drawn
by `login` itself or the one drawn in the `register` merge path. -/
theorem login_ok_shape {σ : Type} {st : StoreI σ} {secret : String} {now : Nat}
    {google : String → Option OAuthPayload} {uuid uuidReg : String}
    {idToken : String} {provider : AuthProvider} {s : σ} {pr : TokenPair} {s' : σ}
    (h : login st secret now google uuid uuidReg idToken provider s = (.ok pr, s')) :
    ∃ q, pr.accessToken = getAccessToken secret now q ∧
      (pr.refreshToken = uuid ∨ pr.refreshToken = uuidReg) := by
  unfold login at h
  split at h
  · split at h <;> simp at h
  · simp at h
  · split at h
    · split at h
      · obtain ⟨rec, s1, -, h1, h2⟩ := register_ok_shape h
        exact ⟨_, h1, Or.inr h2⟩
      · simp at h
    · split at h
      · split at h
        · obtain ⟨rec, s1, -, h1, h2⟩ := register_ok_shape h
          exact ⟨_, h1, Or.inr h2⟩
        · simp at h
      · simp [Prod.ext_iff] at h
        obtain ⟨h1, -⟩ := h
        exact ⟨_, by rw [← h1], Or.inl (by rw [← h1])⟩

/-- A successful refresh exchange issues its access token through
`getAccessToken` from the decoded claims at the call clock. -/
theorem refreshToken_ok_shape {σ : Type} {st : StoreI σ} {secret : String}
    {now : Nat} {uuid : String} {a : TokenStr} {rtok : String} {s : σ}
    {pr : TokenPair} {s' : σ}
    (h : refreshToken st secret now uuid a rtok s = (.ok (some pr), s')) :
    ∃ p, jwtDecode a = some p ∧
      pr.accessToken = getAccessToken secret now p ∧ pr.refreshToken = uuid := by
  unfold refreshToken at h
  split at h
  · split at h
    next p heq =>
      split at h
      next => simp at h
      next rec s1 heq2 =>
        split at h
        · split at h
          next => simp at h
          next =>
            simp [Prod.ext_iff] at h
            obtain ⟨h1, -⟩ := h
            exact ⟨p, heq, by rw [← h1], by rw [← h1]⟩
        · simp at h
    next heq => simp at h
  · simp at h

/-- C7: every access token issued by the codec — directly through
`getAccessToken` and on the success path of each of `silentLogin`,
`login`, `register` and the refresh exchange — carries signed claims
with `iat` the wall clock at issuance and `exp = iat + 300`. -/
theorem issued_access_token_iat_exp {σ : Type} (st : StoreI σ) (secret : String)
    (now : Nat) (google : String → Option OAuthPayload) (uuid uuidReg : String)
    (idToken : String) (provider : AuthProvider) (a : TokenStr) (rtok : String)
    (p : Payload) (s : σ) :
    freshClaims now (getAccessToken secret now p) ∧
    (∀ pr s', silentLogin st secret now uuid a s = (.ok pr, s') →
      freshClaims now pr.accessToken) ∧
    (∀ pr s', login st secret now google uuid uuidReg idToken provider s = (.ok pr, s') →
      freshClaims now pr.accessToken) ∧
    (∀ pr s', register st secret now uuid p s = (.ok pr, s') →
      freshClaims now pr.accessToken) ∧
    (∀ pr s', refreshToken st secret now uuid a rtok s = (.ok (some pr), s') →
      freshClaims now pr.accessToken) := by
  refine ⟨getAccessToken_freshClaims secret now p, ?_, ?_, ?_, ?_⟩
  · intro pr s' h
    obtain ⟨q, hq, -⟩ := silentLogin_ok_accessToken h
    rw [hq]; exact getAccessToken_freshClaims secret now q
  · intro pr s' h
    obtain ⟨q, hq, -⟩ := login_ok_shape h
    rw [hq]; exact getAccessToken_freshClaims secret now q
  · intro pr s' h
    obtain ⟨rec, s1, -, hq, -⟩ := register_ok_shape h
    rw [hq]; exact getAccessToken_freshClaims secret now _
  · intro pr s' h
    obtain ⟨q, -, hq, -⟩ := refreshToken_ok_shape h
    rw [hq]; exact getAccessToken_freshClaims secret now q

/-- Witness for C7: the issuance claims evaluated on concrete successful
runs of each operation over the spec-modelled store. -/
theorem issued_access_token_iat_exp_witness :
    freshClaims 7 (getAccessToken "sec" 7 payW) ∧
    freshClaims 7 prSilentW.accessToken ∧
    freshClaims 7 prRegW.accessToken :=
  have t := issued_access_token_iat_exp specStore "sec" 7 googleW "v1" "v2" "id"
    .Google (.signed payW "sec") "r0" payW dbW
  ⟨t.1, t.2.1 prSilentW dbRotW rfl, t.2.2.2.1 prRegW dbRegW rfl⟩

/-- C9: `getAccessToken` issues the same token whatever `iat`/`exp` the
caller supplied; `register` issues the same result whatever `userId` the
incoming claim carried, and the token it issues is bound to the id of
the record just created — so stale `iat`, `exp` or `userId` values never
reach an issued token. -/
theorem issuance_overrides_stale_fields {σ : Type} (st : StoreI σ) (secret : String)
    (now : Nat) (uuid : String) (p : Payload) (s : σ) :
    (∀ i e : Option Nat, getAccessToken secret now { p with iat := i, exp := e } =
        getAccessToken secret now p) ∧
    (∀ su : Option String, register st secret now uuid { p with userId := su } s =
        register st secret now uuid p s) ∧
    (∀ rec s1 pr s', st.create p.name p.email s = (.ok rec, s1) →
        register st secret now uuid p s = (.ok pr, s') →
        pr.accessToken = getAccessToken secret now { p with userId := some rec._id }) := by
  refine ⟨fun i e => rfl, fun su => rfl, ?_⟩
  intro rec s1 pr s' hc h
  obtain ⟨rec2, s12, hc2, hq, -⟩ := register_ok_shape h
  rw [hc] at hc2
  simp [Prod.ext_iff] at hc2
  obtain ⟨h1, -⟩ := hc2
  rw [hq, h1]

/-- Witness for C9: concrete stale values are overridden on a concrete
successful `register` run over the spec-modelled store. -/
theorem issuance_overrides_stale_fields_witness :
    getAccessToken "sec" 7 { payW with iat := some 99, exp := some 100 } =
      getAccessToken "sec" 7 payW ∧
    register specStore "sec" 7 "v1" { payW with userId := some "stale" } dbW =
      register specStore "sec" 7 "v1" payW dbW ∧
    prRegW.accessToken = getAccessToken "sec" 7 { payW with userId := some "u1" } :=
  have t := issuance_overrides_stale_fields specStore "sec" 7 "v1" payW dbW
  ⟨t.1 (some 99) (some 100), t.2.1 (some "stale"),
   t.2.2 recU1W dbCreateW prRegW dbRegW rfl rfl⟩

/-- C1: inside `login`, a NotFound (404) failure of the email lookup
transfers control to `register` with the verified claim and the result
is exactly the result of that `register` call; a lookup failure with any
other status propagates unchanged. -/
theorem login_notFound_registers {σ : Type} (st : StoreI σ) (secret : String)
    (now : Nat) (google : String → Option OAuthPayload) (uuid uuidReg : String)
    (idToken : String) (provider : AuthProvider) (oauth : OAuthPayload)
    (s s1 : σ) (e : JsError)
    (hver : verifyIdToken google idToken provider = .ok (some oauth))
    (hget : st.getByEmail oauth.email s = (.error e, s1)) :
    (e.status = some notFoundStatus →
      login st secret now google uuid uuidReg idToken provider s =
        register st secret now uuidReg oauth.toPayload s1) ∧
    (e.status ≠ some notFoundStatus →
      login st secret now google uuid uuidReg idToken provider s = (.error e, s1)) := by
  have he : oauth.toPayload.email = oauth.email := rfl
  constructor <;> intro hst
  · simp only [login, hver, he, hget, hst, if_true]
  · simp only [login, hver, he, hget]
    rw [if_neg hst]

/-- Witness for C1: on the empty database the email lookup fails
NotFound and `login` equals the direct `register` call; on a store whose
lookup fails with 401 the failure propagates unchanged. -/
theorem login_notFound_registers_witness :
    login specStore "sec" 7 googleW "v1" "v2" "id" .Google dbEmptyW =
      register specStore "sec" 7 "v2" oauthW.toPayload dbEmptyW ∧
    login emailErrStore "sec" 7 googleW "v1" "v2" "id" .Google 0 =
      (.error idTokenNotValidErr, 0) :=
  ⟨(login_notFound_registers specStore "sec" 7 googleW "v1" "v2" "id" .Google
      oauthW dbEmptyW dbEmptyW notFoundErr rfl rfl).1 rfl,
   (login_notFound_registers emailErrStore "sec" 7 googleW "v1" "v2" "id" .Google
      oauthW 0 0 idTokenNotValidErr rfl rfl).2 (by decide)⟩

/-- C10: the `catch` of `login` covers the whole body, not only the email
lookup — a 404 raised by `saveRefreshToken` after a successful lookup
also transfers control to `register` (which creates a new user record)
instead of propagating. -/
theorem login_notFound_after_lookup_registers {σ : Type} (st : StoreI σ)
    (secret : String) (now : Nat) (google : String → Option OAuthPayload)
    (uuid uuidReg : String) (idToken : String) (provider : AuthProvider)
    (oauth : OAuthPayload) (rec : UserRecord) (s s1 s2 : σ) (e : JsError)
    (hver : verifyIdToken google idToken provider = .ok (some oauth))
    (hget : st.getByEmail oauth.email s = (.ok rec, s1))
    (hsave : st.saveRefreshToken (some rec._id) (some uuid) s1 = (.error e, s2))
    (h404 : e.status = some notFoundStatus) :
    login st secret now google uuid uuidReg idToken provider s =
      register st secret now uuidReg oauth.toPayload s2 := by
  have he : oauth.toPayload.email = oauth.email := rfl
  simp only [login, hver, he, hget, hsave, h404, if_true]

/-- Witness for C10: on a store whose lookups succeed but whose
`saveRefreshToken` fails 404, `login` equals the direct `register` call. -/
theorem login_notFound_after_lookup_registers_witness :
    login saveFailsStore "sec" 7 googleW "v1" "v2" "id" .Google 0 =
      register saveFailsStore "sec" 7 "v2" oauthW.toPayload 0 :=
  login_notFound_after_lookup_registers saveFailsStore "sec" 7 googleW "v1" "v2"
    "id" .Google oauthW recW 0 0 0 notFoundErr rfl rfl rfl rfl

/-- C8: a `silentLogin` carrying a validly signed, unexpired access token
whose `userId` no longer names a user record fails with the store
NotFound error, propagated unchanged, and leaves the store state exactly
as it was (no refresh-token write). -/
theorem silentLogin_deleted_user_notFound (secret : String) (now : Nat)
    (uuid : String) (p : Payload) (db : DB) (u : String)
    (hexp : expOk now p.exp = true) (hu : p.userId = some u)
    (hnone : db.findId (some u) = none) :
    silentLogin specStore secret now uuid (.signed p secret) db =
      (.error notFoundErr, db) := by
  simp [silentLogin, verifyAccessToken, jwtVerify, hexp, specStore, DB.getById,
        hu, hnone]

/-- Witness for C8: a valid token for user `"u0"` against the empty
database. -/
theorem silentLogin_deleted_user_notFound_witness :
    silentLogin specStore "sec" 7 "v1" (.signed payW "sec") dbEmptyW =
      (.error notFoundErr, dbEmptyW) :=
  silentLogin_deleted_user_notFound "sec" 7 "v1" payW dbEmptyW "u0" rfl rfl rfl

/-- `find?` by id after updating the refresh token of every record with
that id finds the updated first match. -/
theorem find?_update_users (users : List UserRecord) (u : String) (tok : Option String) :
    (users.map (fun r => if some r._id == some u then { r with refreshToken := tok } else r)).find?
        (fun r => some r._id == some u) =
      (users.find? (fun r => some r._id == some u)).map
        (fun r => { r with refreshToken := tok }) := by
  rw [List.find?_map]
  have hp : ((fun r : UserRecord => some r._id == some u) ∘
      (fun r => if some r._id == some u then { r with refreshToken := tok } else r)) =
      (fun r : UserRecord => some r._id == some u) := by
    funext r
    by_cases h : r._id = u
    · simp [h]
    · simp [h]
  rw [hp]
  cases hf : users.find? (fun r => some r._id == some u) with
  | none => rfl
  | some r =>
    have hpr := List.find?_some hf
    have hid : r._id = u := by simpa using hpr
    simp [hid]

/-- `findId` after `saveRefreshToken` yields the previously found record
with its refresh token overwritten. -/
theorem findId_after_save (db : DB) (uid : Option String) (u : String)
    (tok : Option String) (hu : uid = some u) :
    ((DB.saveRefreshToken uid tok db).2).findId (some u) =
      (db.findId (some u)).map (fun r => { r with refreshToken := tok }) := by
  subst hu
  simp only [DB.saveRefreshToken, DB.findId]
  exact find?_update_users db.users u tok

/-- A refresh exchange over the spec-modelled store cannot succeed when
the stored refresh token of the user named by the decoded access token
(if any) differs from the presented value. -/
theorem exchange_fails_of_stale (secret : String) (now : Nat) (uuid : String)
    (a : TokenStr) (r1 : String) (db : DB)
    (h : ∀ p u rec, jwtDecode a = some p → p.userId = some u →
        db.findId (some u) = some rec → rec.refreshToken ≠ some r1) :
    succeeded (refreshToken specStore secret now uuid a r1 db).1 = false := by
  unfold refreshToken
  cases a with
  | raw s => simp [jwtDecode, payloadUserIdTruthy, succeeded]
  | signed p sig =>
    cases hu : p.userId with
    | none => simp [jwtDecode, payloadUserIdTruthy, hu, succeeded]
    | some u =>
      by_cases hr1 : r1 = ""
      · simp [hr1, succeeded]
      · by_cases hue : u = ""
        · simp [jwtDecode, payloadUserIdTruthy, hu, hue, succeeded]
        · cases hf : db.findId (some u) with
          | none =>
            simp [jwtDecode, payloadUserIdTruthy, TokenStr.truthy, hu, hue, hr1,
                  specStore, DB.getUserIfRefreshTokenMatches, hf, succeeded]
          | some rec =>
            have hne := h p u rec rfl hu hf
            simp [jwtDecode, payloadUserIdTruthy, TokenStr.truthy, hu, hue, hr1,
                  specStore, DB.getUserIfRefreshTokenMatches, hf, hne, succeeded]

/-- Once the store binds the token user to the freshly rotated value, an
exchange presenting any other value fails. -/
theorem rotated_exchange_fails (secret : String) (now : Nat) (uuid r1 : String)
    (db : DB) (pr : TokenPair) (hrot : rotatedState db pr)
    (hne : r1 ≠ pr.refreshToken) :
    succeeded (refreshToken specStore secret now uuid pr.accessToken r1 db).1 = false := by
  obtain ⟨p, u, rec, hdec, hu, hfind, htok⟩ := hrot
  apply exchange_fails_of_stale
  intro p2 u2 rec2 hdec2 hu2 hfind2
  rw [hdec] at hdec2
  injection hdec2 with hp; subst hp
  rw [hu] at hu2
  injection hu2 with hu3; subst hu3
  rw [hfind] at hfind2
  injection hfind2 with hr; subst hr
  rw [htok]
  intro hcon
  injection hcon with hc
  exact hne hc.symm

/-- Inversion of a successful `getById` on the spec-modelled store. -/
theorem getById_ok_inv {uid : Option String} {db : DB} {rec : UserRecord}
    {s1 : DB} (h : DB.getById uid db = (.ok rec, s1)) :
    db.findId uid = some rec ∧ s1 = db := by
  unfold DB.getById at h
  cases hf : db.findId uid with
  | none =>
    rw [hf] at h
    exact absurd (congrArg Prod.fst h) (by simp)
  | some r =>
    rw [hf] at h
    have h1 := congrArg Prod.fst h
    have h2 := congrArg Prod.snd h
    simp only [Prod.fst, Prod.snd, Except.ok.injEq] at h1 h2
    exact ⟨by rw [h1], h2.symm⟩

/-- A successful `findId` means the queried id is the id of the found
record. -/
theorem findId_userId {db : DB} {uid : Option String} {rec : UserRecord}
    (h : db.findId uid = some rec) : uid = some rec._id := by
  have h1 := List.find?_some h
  have h2 : some rec._id = uid := by simpa using h1
  exact h2.symm

/-- A successful `silentLogin` over the spec-modelled store leaves the
store rotated to the returned pair. -/
theorem silentLogin_rotates {secret : String} {now : Nat} {uuid : String}
    {a : TokenStr} {db db' : DB} {pr : TokenPair}
    (h : silentLogin specStore secret now uuid a db = (.ok pr, db')) :
    rotatedState db' pr := by
  unfold silentLogin at h
  split at h
  · simp at h
  next p hver =>
    split at h
    · simp at h
    next rec s1 hget =>
      split at h
      next e s2 hsave => simp [specStore, DB.saveRefreshToken] at hsave
      next x s2 hsave =>
        obtain ⟨hfind, rfl⟩ := getById_ok_inv hget
        have hu : p.userId = some rec._id := findId_userId hfind
        simp only [specStore, DB.saveRefreshToken] at hsave
        have hs2 : s2 = (DB.saveRefreshToken p.userId (some uuid) s1).2 := by
          have := congrArg Prod.snd hsave
          simpa [DB.saveRefreshToken] using this.symm
        simp only [Prod.mk.injEq, Except.ok.injEq] at h
        obtain ⟨hpr, hdb⟩ := h
        refine ⟨{ p with iat := some now, exp := some (now + jwtTTL) }, rec._id,
          { rec with refreshToken := some uuid }, ?_, ?_, ?_, ?_⟩
        · rw [← hpr]; exact rfl
        · exact hu
        · rw [← hdb, hs2, findId_after_save s1 p.userId rec._id (some uuid) hu,
            ← hu, hfind]
          rfl
        · rw [← hpr]

/-- Inversion of a successful `verifyAccessToken`. -/
theorem verifyAccessToken_ok_inv {secret : String} {now : Nat} {a : TokenStr}
    {p : Payload} (h : verifyAccessToken secret now a = .ok p) :
    jwtVerify secret now a = some p := by
  unfold verifyAccessToken at h
  cases hv : jwtVerify secret now a with
  | none => rw [hv] at h; simp at h
  | some q => rw [hv] at h; injection h with h1; rw [h1]

/-- A token accepted by `jwtVerify` decodes to the same claims. -/
theorem jwtVerify_decode {secret : String} {now : Nat} {a : TokenStr}
    {p : Payload} (h : jwtVerify secret now a = some p) :
    jwtDecode a = some p := by
  cases a with
  | raw s => simp [jwtVerify] at h
  | signed c sig =>
    simp only [jwtVerify] at h
    by_cases hc : sig = secret ∧ expOk now c.exp
    · rw [if_pos hc] at h; exact h
    · rw [if_neg hc] at h; simp at h

/-- Inversion of a successful `getByEmail` on the spec-modelled store. -/
theorem getByEmail_ok_inv {email : String} {db : DB} {rec : UserRecord}
    {s1 : DB} (h : DB.getByEmail email db = (.ok rec, s1)) :
    db.users.find? (fun r => r.email == email) = some rec ∧ s1 = db := by
  unfold DB.getByEmail at h
  cases hf : db.users.find? (fun r => r.email == email) with
  | none =>
    rw [hf] at h
    exact absurd (congrArg Prod.fst h) (by simp)
  | some r =>
    rw [hf] at h
    have h1 := congrArg Prod.fst h
    have h2 := congrArg Prod.snd h
    simp only [Prod.fst, Prod.snd, Except.ok.injEq] at h1 h2
    exact ⟨by rw [h1], h2.symm⟩

/-- Inversion of a successful refresh-token match on the spec-modelled
store. -/
theorem getUserIfMatches_ok_inv {uid : Option String} {tok : String} {db : DB}
    {rec : UserRecord} {s1 : DB}
    (h : DB.getUserIfRefreshTokenMatches uid tok db = (.ok rec, s1)) :
    db.findId uid = some rec ∧ rec.refreshToken = some tok ∧ s1 = db := by
  unfold DB.getUserIfRefreshTokenMatches at h
  cases hf : db.findId uid with
  | none =>
    simp only [hf] at h
    exact absurd (congrArg Prod.fst h) (by simp)
  | some r =>
    simp only [hf] at h
    by_cases hm : r.refreshToken = some tok
    · rw [if_pos hm] at h
      have h1 := congrArg Prod.fst h
      have h2 := congrArg Prod.snd h
      simp only [Prod.fst, Prod.snd, Except.ok.injEq] at h1 h2
      refine ⟨by rw [h1], ?_, h2.symm⟩
      rw [← h1]; exact hm
    · rw [if_neg hm] at h
      exact absurd (congrArg Prod.fst h) (by simp)

/-- A successful `register` over the spec-modelled store leaves the
store rotated to the returned pair. -/
theorem register_rotates {secret : String} {now : Nat} {uuid : String}
    {p : Payload} {db db' : DB} {pr : TokenPair}
    (h : register specStore secret now uuid p db = (.ok pr, db')) :
    rotatedState db' pr := by
  unfold register at h
  split at h
  next e s1 hc => simp [specStore, DB.create] at hc
  next rec s1 hc =>
    split at h
    next e s2 hsave => simp [specStore, DB.saveRefreshToken] at hsave
    next x s2 hsave =>
      simp only [specStore, DB.create] at hc
      have hc1 := congrArg Prod.fst hc
      have hc2 := congrArg Prod.snd hc
      simp only [Prod.fst, Prod.snd, Except.ok.injEq] at hc1 hc2
      have hmem : rec ∈ s1.users := by
        rw [← hc2, ← hc1]
        simp
      have hsome : (s1.findId (some rec._id)).isSome := by
        unfold DB.findId
        rw [List.find?_isSome]
        exact ⟨rec, hmem, by simp⟩
      obtain ⟨rfind, hrf⟩ := Option.isSome_iff_exists.mp hsome
      simp only [specStore, DB.saveRefreshToken] at hsave
      have hs2 : s2 = (DB.saveRefreshToken (some rec._id) (some uuid) s1).2 := by
        have := congrArg Prod.snd hsave
        simpa [DB.saveRefreshToken] using this.symm
      simp only [Prod.mk.injEq, Except.ok.injEq] at h
      obtain ⟨hpr, hdb⟩ := h
      refine ⟨{ p with userId := some rec._id, iat := some now, exp := some (now + jwtTTL) }, rec._id, { rfind with refreshToken := some uuid }, ?_, ?_, ?_, ?_⟩
      · rw [← hpr]; exact rfl
      · rfl
      · rw [← hdb, hs2, findId_after_save s1 (some rec._id) rec._id (some uuid) rfl,
          hrf]
        rfl
      · rw [← hpr]

/-- A successful `login` over the spec-modelled store leaves the store
rotated to the returned pair, on both the found path and the register
merge path. -/
theorem login_rotates {secret : String} {now : Nat}
    {google : String → Option OAuthPayload} {uuid uuidReg idToken : String}
    {provider : AuthProvider} {db db' : DB} {pr : TokenPair}
    (h : login specStore secret now google uuid uuidReg idToken provider db =
      (.ok pr, db')) : rotatedState db' pr := by
  unfold login at h
  split at h
  · split at h <;> simp at h
  · simp at h
  next oauth hver =>
    split at h
    next e s1 hget =>
      split at h
      · exact register_rotates h
      · simp at h
    next rec s1 hget =>
      split at h
      next e s2 hsave => simp [specStore, DB.saveRefreshToken] at hsave
      next x s2 hsave =>
        obtain ⟨hfindE, rfl⟩ := getByEmail_ok_inv hget
        have hmem : rec ∈ s1.users := List.mem_of_find?_eq_some hfindE
        have hsome : (s1.findId (some rec._id)).isSome := by
          unfold DB.findId
          rw [List.find?_isSome]
          exact ⟨rec, hmem, by simp⟩
        obtain ⟨rfind, hrf⟩ := Option.isSome_iff_exists.mp hsome
        simp only [specStore, DB.saveRefreshToken] at hsave
        have hs2 : s2 = (DB.saveRefreshToken (some rec._id) (some uuid) s1).2 := by
          have := congrArg Prod.snd hsave
          simpa [DB.saveRefreshToken] using this.symm
        simp only [Prod.mk.injEq, Except.ok.injEq] at h
        obtain ⟨hpr, hdb⟩ := h
        refine ⟨{ oauth.toPayload with userId := some rec._id, iat := some now, exp := some (now + jwtTTL) }, rec._id, { rfind with refreshToken := some uuid }, ?_, ?_, ?_, ?_⟩
        · rw [← hpr]; exact rfl
        · rfl
        · rw [← hdb, hs2, findId_after_save s1 (some rec._id) rec._id (some uuid) rfl, hrf]
          rfl
        · rw [← hpr]

/-- A successful refresh exchange over the spec-modelled store leaves
the store rotated to the returned pair. -/
theorem refresh_rotates {secret : String} {now : Nat} {uuid : String}
    {a : TokenStr} {rtok : String} {db db' : DB} {pr : TokenPair}
    (h : refreshToken specStore secret now uuid a rtok db = (.ok (some pr), db')) :
    rotatedState db' pr := by
  unfold refreshToken at h
  split at h
  · split at h
    next p hdec =>
      split at h
      next e s1 hm => simp at h
      next rec s1 hm =>
        split at h
        · split at h
          next e s2 hsave => simp [specStore, DB.saveRefreshToken] at hsave
          next x s2 hsave =>
            obtain ⟨hfind, htok, rfl⟩ := getUserIfMatches_ok_inv hm
            have hu : p.userId = some rec._id := findId_userId hfind
            simp only [specStore, DB.saveRefreshToken] at hsave
            have hs2 : s2 = (DB.saveRefreshToken (some rec._id) (some uuid) s1).2 := by
              have := congrArg Prod.snd hsave
              simpa [DB.saveRefreshToken] using this.symm
            simp only [Prod.mk.injEq, Except.ok.injEq, Option.some.injEq] at h
            obtain ⟨hpr, hdb⟩ := h
            refine ⟨{ p with iat := some now, exp := some (now + jwtTTL) }, rec._id, { rec with refreshToken := some uuid }, ?_, ?_, ?_, ?_⟩
            · rw [← hpr]; exact rfl
            · exact hu
            · rw [← hdb, hs2, findId_after_save s1 (some rec._id) rec._id (some uuid) rfl, ← hu, hfind]
              rfl
            · rw [← hpr]
        · simp at h
    next hdec => simp at h
  · simp at h

/-- A refresh exchange succeeds only by presenting exactly the stored
refresh token of the user named by the decoded access token. -/
theorem exchange_success_presents_stored {secret : String} {now : Nat}
    {uuid : String} {a : TokenStr} {rtok : String} {db db' : DB} {pr : TokenPair}
    (h : refreshToken specStore secret now uuid a rtok db = (.ok (some pr), db')) :
    ∃ p u rec, jwtDecode a = some p ∧ p.userId = some u ∧
      db.findId (some u) = some rec ∧ rec.refreshToken = some rtok := by
  unfold refreshToken at h
  split at h
  · split at h
    next p hdec =>
      split at h
      next e s1 hm => simp at h
      next rec s1 hm =>
        obtain ⟨hfind, htok, rfl⟩ := getUserIfMatches_ok_inv hm
        have hu : p.userId = some rec._id := findId_userId hfind
        exact ⟨p, rec._id, rec, hdec, hu, by rw [← hu]; exact hfind, htok⟩
    next hdec => simp at h
  · simp at h

/-- An exchange outcome is successful exactly when it is a pair. -/
theorem succeeded_iff {x : Except JsError (Option TokenPair)} :
    succeeded x = true ↔ ∃ pr, x = .ok (some pr) := by
  cases x with
  | error e => simp [succeeded]
  | ok o => cases o <;> simp [succeeded]

/-- After a successful `logout` over the spec-modelled store, no refresh
exchange using the logged-out access token succeeds, whatever refresh
token value it presents. -/
theorem logout_clears {secret : String} {now : Nat} {a : TokenStr} {db db' : DB}
    (h : logout specStore secret now a db = (.ok (), db')) (secret2 : String)
    (now2 : Nat) (uuid2 r1 : String) :
    succeeded (refreshToken specStore secret2 now2 uuid2 a r1 db').1 = false := by
  unfold logout at h
  split at h
  · simp at h
  next p hver =>
    split at h
    next e s1 hsave => simp [specStore, DB.saveRefreshToken] at hsave
    next x s1 hsave =>
      have hdec : jwtDecode a = some p := jwtVerify_decode (verifyAccessToken_ok_inv hver)
      simp only [specStore, DB.saveRefreshToken] at hsave
      have hs1 : s1 = (DB.saveRefreshToken p.userId none db).2 := by
        have := congrArg Prod.snd hsave
        simpa [DB.saveRefreshToken] using this.symm
      have hdb' : db' = (DB.saveRefreshToken p.userId none db).2 := by
        have h2 := congrArg Prod.snd h
        simp only [Prod.snd] at h2
        rw [← h2, hs1]
      apply exchange_fails_of_stale
      intro p2 u rec hdec2 hu hfind
      rw [hdec] at hdec2
      injection hdec2 with hp
      subst hp
      rw [hdb', findId_after_save db p.userId u none hu] at hfind
      cases hf : db.findId (some u) with
      | none => rw [hf] at hfind; simp at hfind
      | some r =>
        rw [hf] at hfind
        injection hfind with hr
        rw [← hr]
        simp

/-- C5: each record stores a single refresh token value, superseded on
every rotation: after a successful `silentLogin`, `login`, `register` or
refresh exchange, an exchange presenting any value other than the
freshly returned one with the freshly issued access token does not
succeed; after `logout`, no exchange with the logged-out token succeeds
at all; and two successful exchanges from the same state with the same
access token must present the same (single) stored value. -/
theorem rotation_supersedes_old_refresh_token (secret : String) (now now2 : Nat)
    (uuid uuid2 uuidReg r1 r2 rtok idToken : String)
    (google : String → Option OAuthPayload) (provider : AuthProvider)
    (a : TokenStr) (p : Payload) (db db' : DB) (pr : TokenPair) :
    (silentLogin specStore secret now uuid a db = (.ok pr, db') →
      r1 ≠ pr.refreshToken →
      succeeded (refreshToken specStore secret now2 uuid2 pr.accessToken r1 db').1 = false) ∧
    (login specStore secret now google uuid uuidReg idToken provider db = (.ok pr, db') →
      r1 ≠ pr.refreshToken →
      succeeded (refreshToken specStore secret now2 uuid2 pr.accessToken r1 db').1 = false) ∧
    (register specStore secret now uuid p db = (.ok pr, db') →
      r1 ≠ pr.refreshToken →
      succeeded (refreshToken specStore secret now2 uuid2 pr.accessToken r1 db').1 = false) ∧
    (refreshToken specStore secret now uuid a rtok db = (.ok (some pr), db') →
      r1 ≠ pr.refreshToken →
      succeeded (refreshToken specStore secret now2 uuid2 pr.accessToken r1 db').1 = false) ∧
    (logout specStore secret now a db = (.ok (), db') →
      succeeded (refreshToken specStore secret now2 uuid2 a r1 db').1 = false) ∧
    (succeeded (refreshToken specStore secret now uuid a r1 db).1 = true →
      succeeded (refreshToken specStore secret now2 uuid2 a r2 db).1 = true → r1 = r2) := by
  refine ⟨?_, ?_, ?_, ?_, ?_, ?_⟩
  · intro h hne
    exact rotated_exchange_fails secret now2 uuid2 r1 db' pr (silentLogin_rotates h) hne
  · intro h hne
    exact rotated_exchange_fails secret now2 uuid2 r1 db' pr (login_rotates h) hne
  · intro h hne
    exact rotated_exchange_fails secret now2 uuid2 r1 db' pr (register_rotates h) hne
  · intro h hne
    exact rotated_exchange_fails secret now2 uuid2 r1 db' pr (refresh_rotates h) hne
  · intro h
    exact logout_clears h secret now2 uuid2 r1
  · intro h1 h2
    obtain ⟨pr1, hp1⟩ := succeeded_iff.mp h1
    obtain ⟨pr2, hp2⟩ := succeeded_iff.mp h2
    have e1 : refreshToken specStore secret now uuid a r1 db =
        (.ok (some pr1), (refreshToken specStore secret now uuid a r1 db).2) :=
      Prod.ext_iff.mpr ⟨hp1, rfl⟩
    have e2 : refreshToken specStore secret now2 uuid2 a r2 db =
        (.ok (some pr2), (refreshToken specStore secret now2 uuid2 a r2 db).2) :=
      Prod.ext_iff.mpr ⟨hp2, rfl⟩
    obtain ⟨p1, u1, rec1, hd1, hu1, hf1, ht1⟩ := exchange_success_presents_stored e1
    obtain ⟨p2, u2, rec2, hd2, hu2, hf2, ht2⟩ := exchange_success_presents_stored e2
    rw [hd1] at hd2
    injection hd2 with hp
    subst hp
    rw [hu1] at hu2
    injection hu2 with hu
    subst hu
    rw [hf1] at hf2
    injection hf2 with hr
    subst hr
    rw [ht1] at ht2
    injection ht2 with ht

/-- Witness for C5: concrete successful runs of each operation, after
which presenting the superseded value `"r0"` fails. -/
theorem rotation_supersedes_old_refresh_token_witness :
    succeeded (refreshToken specStore "sec" 9 "v2" prSilentW.accessToken "r0" dbRotW).1 = false ∧
    succeeded (refreshToken specStore "sec" 9 "v2" prRegW.accessToken "r0" dbRegW).1 = false ∧
    succeeded (refreshToken specStore "sec" 9 "v2" (.signed payW "sec") "r0" dbLogoutW).1 = false ∧
    "r0" = "r0" :=
  have t1 := rotation_supersedes_old_refresh_token "sec" 7 9 "v1" "v2" "v2" "r0"
    "r0" "r0" "id" googleW .Google (.signed payW "sec") payW dbW dbRotW prSilentW
  have t2 := rotation_supersedes_old_refresh_token "sec" 7 9 "v1" "v2" "v2" "r0"
    "r0" "r0" "id" googleW .Google (.signed payW "sec") payW dbW dbRegW prRegW
  have t3 := rotation_supersedes_old_refresh_token "sec" 7 9 "v1" "v2" "v2" "r0"
    "r0" "r0" "id" googleW .Google (.signed payW "sec") payW dbW dbLogoutW prSilentW
  ⟨t1.1 rfl (by decide), t2.2.2.1 rfl (by decide),
   t3.2.2.2.2.1 rfl, t1.2.2.2.2.2 rfl rfl⟩
